import Mathlib

/-!
Shallow embedding of the monthly satellite-collection service
(`src/services/satellite_collector.py`, `src/services/data_checker.py`,
`src/services/integration_pipeline.py`).

Calendar months are modelled exactly: a `MonthKey` is the pair (year, month)
that `datetime.strptime(s, "%Y-%m")` produces (the parsed datetime always has
`day == 1`, so comparisons between two parsed months are lexicographic on
(year, month)).  Stored records, the per-month aggregation, the quality
scoring, the gap enumeration and the collection orchestration are embedded
as total functions; the external effects (Earth Engine queries, BigQuery
reads and writes) enter as explicit inputs (lists of per-image results, an
`Option` latest month, boolean upload outcomes), mirroring the values the
source code receives from those calls.
-/

/-- A calendar month as produced by `datetime.strptime(s, "%Y-%m")`:
a year together with a month stored zero-based (`month.val + 1` is the
calendar month 1..12, the bound being guaranteed by the parser). -/
structure MonthKey where
  year : Int
  month : Fin 12
deriving DecidableEq, Repr

/-- Linearisation of a month key: the count of months since year 0.
Used as an auxiliary measure; `MonthKey.before` below is the source's
datetime comparison. -/
def MonthKey.toIdx (k : MonthKey) : Int := 12 * k.year + (k.month.val : Int)

/-- The datetime comparison `a < b` for two months parsed from `"%Y-%m"`
strings: both have `day == 1`, so Python compares (year, month)
lexicographically. -/
def MonthKey.before (a b : MonthKey) : Bool :=
  a.year < b.year || (a.year == b.year && a.month.val < b.month.val)

/-- The datetime comparison `a <= b` for two parsed months. -/
def MonthKey.beforeEq (a b : MonthKey) : Bool :=
  a.before b || a == b

/-- One step of the month-advance in `_get_missing_months`:
`if check_date.month == 12: replace(year+1, month=1) else: replace(month+1)`. -/
def MonthKey.succ (k : MonthKey) : MonthKey :=
  if k.month.val = 11 then ⟨k.year + 1, 0⟩ else ⟨k.year, k.month + 1⟩

/-- The `while check_date < current_date` loop of `_get_missing_months`:
advance `check_date` to the next month and append it, until it reaches
`current`. -/
def gapLoop (check c : MonthKey) : List MonthKey :=
  if h : check.before c = true then check.succ :: gapLoop check.succ c else []
termination_by (c.toIdx - check.toIdx).toNat
decreasing_by
  have hk : check.month.val < 12 := check.month.isLt
  have hc : c.month.val < 12 := c.month.isLt
  have h1 : check.toIdx < c.toIdx := by
    simp only [MonthKey.before, Bool.or_eq_true, decide_eq_true_eq, Bool.and_eq_true,
      beq_iff_eq] at h
    unfold MonthKey.toIdx
    rcases h with h | ⟨hy, hm⟩ <;> omega
  have h2 : check.succ.toIdx = check.toIdx + 1 := by
    unfold MonthKey.succ
    by_cases h11 : check.month.val = 11
    · simp [h11, MonthKey.toIdx]
      omega
    · have hadd : (check.month + 1).val = check.month.val + 1 := by
        have hlt2 : check.month.val + 1 < 12 := by omega
        simp [Fin.add_def, Nat.mod_eq_of_lt, hlt2]
      simp [h11, MonthKey.toIdx, hadd]
      omega
  omega

/-- The body of `_get_missing_months` after parsing succeeded:
`if current_date <= latest_date: return []`, else run the month loop. -/
def getMissingMonths (latest current : MonthKey) : List MonthKey :=
  if current.beforeEq latest then [] else gapLoop latest current

/-- Fuel-indexed unrolling of `gapLoop`, used to reason by induction. -/
def monthsFrom (l : MonthKey) : Nat → List MonthKey
  | 0 => []
  | n + 1 => l.succ :: monthsFrom l.succ n

/-- Iterated month successor. -/
def MonthKey.succPow (l : MonthKey) : Nat → MonthKey
  | 0 => l
  | n + 1 => l.succ.succPow n

/-- Parsing of a `"%Y-%m"` month string, as `datetime.strptime(s, "%Y-%m")`
accepts it: decimal digits for the year, a dash, decimal digits for a month
in 1..12; on any other input `strptime` raises `ValueError`, which we model
as `none`. -/
def digitsToNat? (cs : List Char) : Option Nat :=
  if cs ≠ [] ∧ cs.all Char.isDigit then
    some (cs.foldl (fun acc c => 10 * acc + (c.toNat - 48)) 0)
  else none

def parseMonth (s : String) : Option MonthKey :=
  match s.toList.splitOn '-' with
  | [y, m] =>
    match digitsToNat? y, digitsToNat? m with
    | some yn, some mn =>
      if h : 1 ≤ mn ∧ mn ≤ 12 then some ⟨(yn : Int), ⟨mn - 1, by omega⟩⟩ else none
    | _, _ => none
  | _ => none

/-- Left-pad a number with zeros to a given width, as `strftime` does. -/
def padNum (w n : Nat) : String :=
  let s := toString n
  if s.length < w then String.mk (List.replicate (w - s.length) '0') ++ s else s

/-- `check_date.strftime("%Y-%m")` for a parsed month key. -/
def formatMonth (k : MonthKey) : String :=
  padNum 4 k.year.toNat ++ "-" ++ padNum 2 (k.month.val + 1)

/-- `_get_missing_months(latest_month, current_month)`: parse both month
strings (any parse failure is caught by the `except` and yields `[]`),
return `[]` if `current <= latest`, otherwise every month strictly after
`latest` up to and including `current`, formatted back to `"%Y-%m"`. -/
def _get_missing_months (latest_month current_month : String) : List String :=
  match parseMonth latest_month, parseMonth current_month with
  | some l, some c => (getMissingMonths l c).map formatMonth
  | _, _ => []

/-- The control-flow outcome of `collect_with_gap_filling`: which of the
three paths is taken (bootstrap when no latest month exists, the immediate
`return True` when no months are missing, or gap filling of the missing
months). -/
inductive CollectOutcome where
  | bootstrap : CollectOutcome
  | upToDate : CollectOutcome
  | gapFill : List String → CollectOutcome
deriving DecidableEq, Repr

/-- The branch structure of `collect_with_gap_filling`: the latest recorded
month (the BigQuery `MAX(acquisition_month)` result, `none` when absent or
when the query failed) and the current month string select the path. -/
def collect_with_gap_filling (latest_month : Option String) (current_month : String) :
    CollectOutcome :=
  match latest_month with
  | none => .bootstrap
  | some lm =>
    let missing := _get_missing_months lm current_month
    if missing = [] then .upToDate else .gapFill missing

/-- The boolean the chosen path returns, given the outcomes of the two
collecting subroutines (`collect_satellite_data_monthly` for bootstrap,
`_fill_missing_months` for gap filling); the up-to-date path returns `True`
unconditionally. -/
def collectResult (o : CollectOutcome) (bootstrapOk gapFillOk : Bool) : Bool :=
  match o with
  | .bootstrap => bootstrapOk
  | .upToDate => true
  | .gapFill _ => gapFillOk

/-- How many month windows the chosen path hands to the aggregation
(`_get_monthly_averaged_data`): 6 in the bootstrap loop, one per missing
month during gap filling, none on the up-to-date path (which also performs
no storage write). -/
def plannedAggregations (o : CollectOutcome) : Nat :=
  match o with
  | .bootstrap => 6
  | .upToDate => 0
  | .gapFill ms => ms.length

/-- One Sentinel-2 image of the month window as seen by the per-image loop
of `_get_monthly_averaged_data`: its computed NDVI regional mean
(`ndvi_stats.get('nd')`, `none` when the reducer yields nothing; a
processing exception, which the loop's `except: continue` swallows, is
modelled the same way since the image then contributes nothing), its
`CLOUDY_PIXEL_PERCENTAGE`, its acquisition date string and its asset id. -/
structure ImageResult where
  ndvi : Option ℚ
  cloud : ℚ
  date : String
  id : String
deriving DecidableEq, Repr

/-- The monthly aggregated record built by `_get_monthly_averaged_data`.
The source stores `ndvi_std = round(variance ** 0.5, 4)`; the square root
of a rational is irrational in general, so the embedding keeps the exact
variance in `ndvi_var` and the theorems speak about `Real.sqrt ndvi_var`.
The `processing_date` added later by the callers is not modelled. -/
structure MonthRecord where
  acquisition_month : String
  image_count : Nat
  image_ids : List String
  image_dates : List String
  ndvi_mean : ℚ
  ndvi_var : ℚ
  ndvi_min : ℚ
  ndvi_max : ℚ
  cloud_percentage : ℚ
  sensor : String
  data_quality : String
deriving DecidableEq, Repr

/-- `round(q, d)` on an exact rational: scale, round to the nearest integer,
unscale.  Python's `round` resolves exact ties to the even neighbour; no
tie occurs at any input appearing in the claims, where this agrees with
rounding half up. -/
def pyRound (d : Nat) (q : ℚ) : ℚ := ((round (q * 10 ^ d) : ℤ) : ℚ) / 10 ^ d

/-- `_assess_monthly_data_quality(image_count, avg_cloud_cover, std_dev)`.
The source receives `std_dev = variance ** 0.5` and tests `std_dev < 0.05`
and `std_dev < 0.10`; the embedding receives the exact variance and tests
it against `0.05 ** 2 = 1/400` and `0.10 ** 2 = 1/100`, the same
comparisons since both sides are nonnegative (proved in the C3 theorem). -/
def _assess_monthly_data_quality (image_count : Nat) (avg_cloud_cover : ℚ)
    (variance : ℚ) : String :=
  let countScore : Nat := if 3 ≤ image_count then 40 else if 2 ≤ image_count then 25 else 10
  let cloudScore : Nat := if avg_cloud_cover < 10 then 40 else if avg_cloud_cover < 20 then 25 else 10
  let stdScore : Nat := if variance < 1 / 400 then 20 else if variance < 1 / 100 then 10 else 5
  let quality_score := countScore + cloudScore + stdScore
  if 80 ≤ quality_score then "excellent"
  else if 60 ≤ quality_score then "good"
  else if 40 ≤ quality_score then "fair"
  else "poor"

/-- The accumulation performed by the per-image `for` loop of
`_get_monthly_averaged_data`: each image whose NDVI computation succeeded
appends its NDVI value, cloud percentage, date and id to the four parallel
lists, in input order. -/
def collectContribs : List ImageResult → List ℚ × List ℚ × List String × List String
  | [] => ([], [], [], [])
  | i :: rest =>
    let (vs, cls, ds, ids) := collectContribs rest
    match i.ndvi with
    | some v => (v :: vs, i.cloud :: cls, i.date :: ds, i.id :: ids)
    | none => (vs, cls, ds, ids)

/-- `_get_monthly_averaged_data`: `none` when the filtered collection holds
no image (`if not images_list`) or when no image yields an NDVI value
(`if not ndvi_values`); otherwise the averaged monthly record. -/
def _get_monthly_averaged_data (month_start : String) (images_list : List ImageResult) :
    Option MonthRecord :=
  if images_list = [] then none
  else
    match collectContribs images_list with
    | ([], _, _, _) => none
    | (v :: vs, cloud_percentages, image_dates, image_ids) =>
      let ndvi_values := v :: vs
      let n : ℚ := (ndvi_values.length : ℚ)
      let avg_ndvi := ndvi_values.sum / n
      let avg_cloud_cover := cloud_percentages.sum / (cloud_percentages.length : ℚ)
      let variance :=
        if 1 < ndvi_values.length
        then ((ndvi_values.map (fun x => (x - avg_ndvi) ^ 2)).sum) / n
        else 0
      some {
        acquisition_month := month_start
        image_count := ndvi_values.length
        image_ids := image_ids
        image_dates := image_dates
        ndvi_mean := pyRound 4 avg_ndvi
        ndvi_var := variance
        ndvi_min := pyRound 4 (vs.foldl min v)
        ndvi_max := pyRound 4 (vs.foldl max v)
        cloud_percentage := pyRound 1 avg_cloud_cover
        sensor := "Sentinel-2"
        data_quality := _assess_monthly_data_quality ndvi_values.length avg_cloud_cover variance }

/-- The three-image input of the end-to-end scenario: NDVI values
`[0.62, 0.58, 0.65]`, cloud percentages `[5, 8, 6]`. -/
def c3Input : List ImageResult :=
  [⟨some (62/100), 5, "2024-04-03", "S2A_1"⟩,
   ⟨some (58/100), 8, "2024-04-11", "S2B_2"⟩,
   ⟨some (65/100), 6, "2024-04-21", "S2A_3"⟩]

/-- The record `_get_monthly_averaged_data` produces on `c3Input`. -/
def c3Record : MonthRecord :=
  { acquisition_month := "2024-04"
    image_count := 3
    image_ids := ["S2A_1", "S2B_2", "S2A_3"]
    image_dates := ["2024-04-03", "2024-04-11", "2024-04-21"]
    ndvi_mean := 6167 / 10000
    ndvi_var := 37 / 45000
    ndvi_min := 58 / 100
    ndvi_max := 65 / 100
    cloud_percentage := 63 / 10
    sensor := "Sentinel-2"
    data_quality := "excellent" }

/-- The spec's quality-tier table: a score of at least 80 is excellent, at
least 60 good, at least 40 fair, below that poor (identical to the final
mapping in `_assess_monthly_data_quality`). -/
def qualityTierSpec (score : Nat) : String :=
  if 80 ≤ score then "excellent"
  else if 60 ≤ score then "good"
  else if 40 ≤ score then "fair"
  else "poor"

/-- A row as appended to the BigQuery table: the monthly record plus the
region tags added by `record.update({...})` in the two collection paths.
The `processing_date` (wall-clock timestamp) is not modelled.  A Python
dict may simply lack the `collection_type` key, which is modelled as
`none`. -/
structure StoredRecord where
  base : MonthRecord
  region_id : String
  region_name : String
  latitude : ℚ
  longitude : ℚ
  collection_type : Option String
deriving DecidableEq, Repr

/-- The tagging `record.update({...})` done by the bootstrap path
`collect_satellite_data_monthly` (source lines 126-133): it adds
`region_id`, `region_name`, `latitude` and `longitude` (and
`processing_date`) — and no `collection_type` key. -/
def bootstrapTag (region_id display_name : String) (lat lon : ℚ)
    (rec : MonthRecord) : StoredRecord :=
  ⟨rec, region_id, display_name, lat, lon, none⟩

/-- The tagging `month_data.update({...})` done by the gap-fill path
`_fill_missing_months` (source lines 200-207): the same region fields plus
`collection_type: 'gap_fill'`. -/
def gapFillTag (region_id display_name : String) (lat lon : ℚ)
    (rec : MonthRecord) : StoredRecord :=
  ⟨rec, region_id, display_name, lat, lon, some "gap_fill"⟩

/-- `_fill_missing_months(region_id, display_name, latitude, longitude,
missing_months)`: aggregate each missing month (`monthData` stands for the
per-month result of `_get_monthly_averaged_data`), tag the successful ones,
and return the upload outcome if anything was collected, `False` otherwise
(`upload` stands for `_upload_to_bigquery`, which returns `False` on
failure instead of raising). -/
def _fill_missing_months (region_id display_name : String) (lat lon : ℚ)
    (missing_months : List String)
    (monthData : String → Option MonthRecord)
    (upload : List StoredRecord → Bool) : Bool :=
  let collected_data := missing_months.filterMap
    (fun ms => (monthData ms).map (gapFillTag region_id display_name lat lon))
  if collected_data ≠ [] then upload collected_data else false

/-- A Python `datetime` date (the time-of-day part never influences the
month computations and is not modelled). -/
structure PyDate where
  y : Nat
  m : Nat
  d : Nat
deriving DecidableEq, Repr

/-- The Gregorian leap-year rule used by Python's `datetime`. -/
def isLeap (y : Nat) : Bool :=
  y % 4 == 0 && (y % 100 != 0 || y % 400 == 0)

/-- `calendar.monthrange(y, m)[1]`: the number of days of the month. -/
def daysInMonth (y m : Nat) : Nat :=
  if m = 2 then (if isLeap y then 29 else 28)
  else if m = 4 ∨ m = 6 ∨ m = 9 ∨ m = 11 then 30
  else 31

/-- One day earlier, with calendar carry. -/
def prevDay (dt : PyDate) : PyDate :=
  if 1 < dt.d then ⟨dt.y, dt.m, dt.d - 1⟩
  else if 1 < dt.m then ⟨dt.y, dt.m - 1, daysInMonth dt.y (dt.m - 1)⟩
  else ⟨dt.y - 1, 12, 31⟩

/-- `dt - timedelta(days=n)`: exact calendar subtraction of `n` days. -/
def subDays (dt : PyDate) : Nat → PyDate
  | 0 => dt
  | n + 1 => subDays (prevDay dt) n

/-- The month windows processed by the bootstrap loop of
`collect_satellite_data_monthly`: for `month_offset in range(6)` it takes
`target_month = current_date - timedelta(days=30 * month_offset)` and
processes the calendar month `target_month` falls in (its `(year, month)`
pair, from which `month_start`/`month_end` are derived). -/
def bootstrapTargetMonths (current : PyDate) : List (Nat × Nat) :=
  (List.range 6).map (fun off => ((subDays current (30 * off)).y, (subDays current (30 * off)).m))

/-- `should_collect_data(region_name)` of `data_checker.py`: count the
stored rows whose `region_name` equals the given display name (the query
is keyed by `region_name`, not by the precision `region_id`); collection
is needed when fewer than 3 exist; any query failure falls back to `True`
(collect). -/
def should_collect_data (store : List StoredRecord) (region_name : String)
    (queryFails : Bool) : Bool :=
  if queryFails then true
  else decide ((store.filter (fun r => r.region_name == region_name)).length < 3)

/-- Step 2-3 of `IntegrationPipeline.analyze_user_location`: satellite
collection (`collect_satellite_data`) is invoked exactly when the location
was found among the user's locations and `should_collect_data` returned
`True`. -/
def analyze_user_location_invokes_collection (location_found : Bool)
    (store : List StoredRecord) (region_name : String) (queryFails : Bool) : Bool :=
  location_found && should_collect_data store region_name queryFails

theorem MonthKey.toIdx_succ (k : MonthKey) : k.succ.toIdx = k.toIdx + 1 := by
  have hk : k.month.val < 12 := k.month.isLt
  unfold MonthKey.succ
  by_cases h : k.month.val = 11
  · simp [h, MonthKey.toIdx]; omega
  · have : (k.month + 1).val = k.month.val + 1 := by
      have : k.month.val + 1 < 12 := by omega
      simp [Fin.add_def, Nat.mod_eq_of_lt, this]
    simp [h, MonthKey.toIdx, this]; omega

theorem MonthKey.before_iff_toIdx (a b : MonthKey) :
    a.before b = true ↔ a.toIdx < b.toIdx := by
  have ha : a.month.val < 12 := a.month.isLt
  have hb : b.month.val < 12 := b.month.isLt
  unfold MonthKey.before MonthKey.toIdx
  constructor
  · intro h
    simp only [Bool.or_eq_true, decide_eq_true_eq, Bool.and_eq_true, beq_iff_eq] at h
    rcases h with h | ⟨h1, h2⟩ <;> omega
  · intro h
    simp only [Bool.or_eq_true, decide_eq_true_eq, Bool.and_eq_true, beq_iff_eq]
    omega

theorem MonthKey.toIdx_inj {a b : MonthKey} (h : a.toIdx = b.toIdx) : a = b := by
  have ha : a.month.val < 12 := a.month.isLt
  have hb : b.month.val < 12 := b.month.isLt
  unfold MonthKey.toIdx at h
  have hy : a.year = b.year := by omega
  have hm : a.month.val = b.month.val := by omega
  cases a; cases b
  simp_all [Fin.ext_iff]

theorem MonthKey.beforeEq_iff_toIdx (a b : MonthKey) :
    a.beforeEq b = true ↔ a.toIdx ≤ b.toIdx := by
  unfold MonthKey.beforeEq
  simp only [Bool.or_eq_true, beq_iff_eq, MonthKey.before_iff_toIdx]
  constructor
  · rintro (h | rfl) <;> omega
  · intro h
    rcases lt_or_eq_of_le h with h | h
    · exact Or.inl h
    · exact Or.inr (MonthKey.toIdx_inj h)

theorem MonthKey.toIdx_succPow (l : MonthKey) :
    ∀ n, (l.succPow n).toIdx = l.toIdx + n := by
  intro n
  induction n generalizing l with
  | zero => simp [MonthKey.succPow]
  | succ n ih =>
    show (l.succ.succPow n).toIdx = _
    rw [ih l.succ, MonthKey.toIdx_succ]
    omega

theorem gapLoop_eq_monthsFrom :
    ∀ (n : Nat) (l c : MonthKey), (c.toIdx - l.toIdx).toNat = n →
      gapLoop l c = monthsFrom l n := by
  intro n
  induction n with
  | zero =>
    intro l c h
    have hnot : ¬ l.before c = true := by
      rw [MonthKey.before_iff_toIdx]; omega
    rw [gapLoop]
    simp [hnot, monthsFrom]
  | succ n ih =>
    intro l c h
    have hlt : l.before c = true := by
      rw [MonthKey.before_iff_toIdx]; omega
    have hsucc : l.succ.toIdx = l.toIdx + 1 := MonthKey.toIdx_succ l
    rw [gapLoop]
    simp only [hlt, dite_true, monthsFrom]
    exact congrArg _ (ih l.succ c (by omega))

theorem monthsFrom_length (l : MonthKey) : ∀ n, (monthsFrom l n).length = n := by
  intro n
  induction n generalizing l with
  | zero => rfl
  | succ n ih => simp [monthsFrom, ih l.succ]

theorem monthsFrom_head (l : MonthKey) (n : Nat) :
    (monthsFrom l (n + 1)).head? = some l.succ := rfl

theorem monthsFrom_getLast (l : MonthKey) :
    ∀ n, (monthsFrom l (n + 1)).getLast? = some (l.succPow (n + 1)) := by
  intro n
  induction n generalizing l with
  | zero => rfl
  | succ n ih =>
    have h : monthsFrom l (n + 2) = l.succ :: monthsFrom l.succ (n + 1) := rfl
    rw [h, List.getLast?_cons, ih l.succ]
    rfl

theorem MonthKey.before_succ (l : MonthKey) : l.before l.succ = true := by
  rw [MonthKey.before_iff_toIdx, MonthKey.toIdx_succ]; omega

theorem monthsFrom_chain (l : MonthKey) :
    ∀ n, List.Chain (fun a b => a.before b = true) l (monthsFrom l n) := by
  intro n
  induction n generalizing l with
  | zero => exact List.Chain.nil
  | succ n ih => exact List.Chain.cons (MonthKey.before_succ l) (ih l.succ)

theorem monthsFrom_chain' (l : MonthKey) (n : Nat) :
    List.Chain' (fun a b => a.before b = true) (monthsFrom l n) := by
  cases n with
  | zero => exact List.chain'_nil
  | succ n => exact monthsFrom_chain l.succ n

theorem collect_with_gap_filling_some (lm cur : String) :
    collect_with_gap_filling (some lm) cur =
      if _get_missing_months lm cur = [] then .upToDate
      else .gapFill (_get_missing_months lm cur) := rfl

theorem getMissingMonths_eq_nil {l c : MonthKey} (h : c.beforeEq l = true) :
    getMissingMonths l c = [] := by
  unfold getMissingMonths
  simp [h]

/-- Computable characterisation of the gap loop: `gapLoop` is defined by
well-founded recursion, so concrete runs are evaluated through the
structurally recursive `monthsFrom`. -/
theorem getMissingMonths_eval (l c : MonthKey) :
    getMissingMonths l c =
      if c.beforeEq l = true then [] else monthsFrom l ((c.toIdx - l.toIdx).toNat) := by
  unfold getMissingMonths
  by_cases h : c.beforeEq l = true
  · simp [h]
  · simp only [h, if_false]
    exact gapLoop_eq_monthsFrom _ l c rfl

/-- C1: for every pair of month keys with `current` strictly after `latest`,
`_get_missing_months`'s gap enumeration is strictly increasing in
chronological order, starts at the month immediately after `latest`, ends at
`current`, and has length equal to the number of calendar months from
`latest` (exclusive) to `current` (inclusive). -/
theorem C1_gap_enumeration (l c : MonthKey) (h : l.before c = true) :
    (getMissingMonths l c).head? = some l.succ ∧
    (getMissingMonths l c).getLast? = some c ∧
    List.Chain' (fun a b => a.before b = true) (getMissingMonths l c) ∧
    (getMissingMonths l c).length = (c.toIdx - l.toIdx).toNat := by
  have hidx : l.toIdx < c.toIdx := (MonthKey.before_iff_toIdx l c).mp h
  have hne : ¬ c.beforeEq l = true := by
    rw [MonthKey.beforeEq_iff_toIdx]; omega
  rw [getMissingMonths_eval, if_neg hne]
  obtain ⟨m, hm⟩ : ∃ m, (c.toIdx - l.toIdx).toNat = m + 1 :=
    ⟨(c.toIdx - l.toIdx).toNat - 1, by omega⟩
  rw [hm]
  refine ⟨monthsFrom_head l m, ?_, monthsFrom_chain' l (m + 1), ?_⟩
  · rw [monthsFrom_getLast l m]
    have : (l.succPow (m + 1)).toIdx = c.toIdx := by
      rw [MonthKey.toIdx_succPow]; omega
    rw [MonthKey.toIdx_inj this]
  · rw [monthsFrom_length l (m + 1)]

theorem C1_gap_enumeration_witness :
    (getMissingMonths ⟨2023, 10⟩ ⟨2024, 1⟩).head? = some (MonthKey.succ ⟨2023, 10⟩) ∧
    (getMissingMonths ⟨2023, 10⟩ ⟨2024, 1⟩).getLast? = some ⟨2024, 1⟩ ∧
    List.Chain' (fun a b => a.before b = true) (getMissingMonths ⟨2023, 10⟩ ⟨2024, 1⟩) ∧
    (getMissingMonths ⟨2023, 10⟩ ⟨2024, 1⟩).length =
      ((2024 * 12 + 1 : Int) - (2023 * 12 + 10 : Int)).toNat :=
  C1_gap_enumeration ⟨2023, 10⟩ ⟨2024, 1⟩ (by decide)

/-- C6: for every pair of month keys where `current` is equal to or before
`latest`, the gap enumeration returns the empty sequence. -/
theorem C6_no_gap_when_up_to_date (l c : MonthKey) (h : c.beforeEq l = true) :
    getMissingMonths l c = [] :=
  getMissingMonths_eq_nil h

theorem C6_no_gap_when_up_to_date_witness :
    getMissingMonths ⟨2024, 4⟩ ⟨2024, 2⟩ = [] :=
  C6_no_gap_when_up_to_date ⟨2024, 4⟩ ⟨2024, 2⟩ (by decide)

/-- C10: when the latest-month string read from storage does not parse as
`"YYYY-MM"`, `_get_missing_months` catches the error and returns the empty
list, so `collect_with_gap_filling` takes the up-to-date path: it returns
`True`, plans no aggregations and performs no write. -/
theorem C10_unparsable_latest_silent_success (lm cur : String) (b g : Bool)
    (h : parseMonth lm = none) :
    _get_missing_months lm cur = [] ∧
    collect_with_gap_filling (some lm) cur = .upToDate ∧
    plannedAggregations (collect_with_gap_filling (some lm) cur) = 0 ∧
    collectResult (collect_with_gap_filling (some lm) cur) b g = true := by
  have hm : _get_missing_months lm cur = [] := by
    unfold _get_missing_months
    rw [h]
  have hc : collect_with_gap_filling (some lm) cur = .upToDate := by
    rw [collect_with_gap_filling_some, hm]
    rfl
  exact ⟨hm, hc, by rw [hc]; rfl, by rw [hc]; rfl⟩

theorem C10_unparsable_latest_silent_success_witness :
    _get_missing_months "corrupt" "2025-10" = [] ∧
    collect_with_gap_filling (some "corrupt") "2025-10" = .upToDate ∧
    plannedAggregations (collect_with_gap_filling (some "corrupt") "2025-10") = 0 ∧
    collectResult (collect_with_gap_filling (some "corrupt") "2025-10") false false = true :=
  C10_unparsable_latest_silent_success "corrupt" "2025-10" false false (by decide)

/-- C8: whenever the latest recorded month is equal to or after the current
month, `collect_with_gap_filling` takes the up-to-date path: it returns
`True` and plans no aggregation and no storage append, so an immediately
repeated run is a no-op. -/
theorem C8_up_to_date_noop (lm cur : String) (l c : MonthKey) (b g : Bool)
    (h1 : parseMonth lm = some l) (h2 : parseMonth cur = some c)
    (h3 : c.beforeEq l = true) :
    collect_with_gap_filling (some lm) cur = .upToDate ∧
    plannedAggregations (collect_with_gap_filling (some lm) cur) = 0 ∧
    collectResult (collect_with_gap_filling (some lm) cur) b g = true := by
  have hm : _get_missing_months lm cur = [] := by
    unfold _get_missing_months
    rw [h1, h2]
    simp [getMissingMonths_eq_nil h3]
  have hc : collect_with_gap_filling (some lm) cur = .upToDate := by
    rw [collect_with_gap_filling_some, hm]
    rfl
  exact ⟨hc, by rw [hc]; rfl, by rw [hc]; rfl⟩

theorem C8_up_to_date_noop_witness :
    collect_with_gap_filling (some "2024-05") "2024-03" = .upToDate ∧
    plannedAggregations (collect_with_gap_filling (some "2024-05") "2024-03") = 0 ∧
    collectResult (collect_with_gap_filling (some "2024-05") "2024-03") false false = true :=
  C8_up_to_date_noop "2024-05" "2024-03" ⟨2024, 4⟩ ⟨2024, 2⟩ false false
    (by decide) (by decide) (by decide)

theorem c3_eval : _get_monthly_averaged_data "2024-04" c3Input = some c3Record := by
  rw [_get_monthly_averaged_data]
  norm_num [c3Input, c3Record, collectContribs, pyRound, round_eq, _assess_monthly_data_quality]
  intro h
  simp at h

theorem collectContribs_all_none {l : List ImageResult}
    (h : ∀ i ∈ l, i.ndvi = none) : collectContribs l = ([], [], [], []) := by
  induction l with
  | nil => rfl
  | cons i rest ih =>
    rw [collectContribs, ih (fun j hj => h j (List.mem_cons_of_mem i hj)),
      h i (List.mem_cons_self i rest)]

/-- C5: a month window in which zero images yield a usable NDVI value (the
collection is empty, or every per-image computation fails) aggregates to
`none` and produces no record; every record that is produced has
`image_count >= 1`. -/
theorem C5_no_empty_records (month : String) (images_list : List ImageResult) :
    ((∀ i ∈ images_list, i.ndvi = none) →
      _get_monthly_averaged_data month images_list = none) ∧
    (∀ r, _get_monthly_averaged_data month images_list = some r → 1 ≤ r.image_count) := by
  constructor
  · intro hall
    rw [_get_monthly_averaged_data]
    by_cases he : images_list = []
    · rw [if_pos he]
    · rw [if_neg he, collectContribs_all_none hall]
  · intro r hr
    rw [_get_monthly_averaged_data] at hr
    by_cases he : images_list = []
    · rw [if_pos he] at hr; exact absurd hr (by simp)
    · rw [if_neg he] at hr
      rcases hfm : collectContribs images_list with ⟨vs, cls, ds, ids⟩
      rw [hfm] at hr
      cases vs with
      | nil => exact absurd hr (by simp)
      | cons v vrest =>
        simp only [Option.some.injEq] at hr
        subst hr
        simp

theorem C5_no_empty_records_witness :
    _get_monthly_averaged_data "2024-02" [⟨none, 12, "2024-02-07", "S2A_9"⟩] = none ∧
    1 ≤ c3Record.image_count :=
  ⟨(C5_no_empty_records "2024-02" [⟨none, 12, "2024-02-07", "S2A_9"⟩]).1
      (by intro i hi; simp at hi; rw [hi]),
   (C5_no_empty_records "2024-04" c3Input).2 c3Record c3_eval⟩

theorem sqrt_var_c3_bounds :
    (573/20000 : ℝ) ≤ Real.sqrt ((37:ℝ)/45000) ∧ Real.sqrt ((37:ℝ)/45000) < 575/20000 := by
  constructor
  · rw [Real.le_sqrt' (by norm_num)]
    norm_num
  · rw [Real.sqrt_lt' (by norm_num)]
    norm_num

/-- The scenario record's standard deviation `sqrt(37/45000) = 0.028674...`
rounds at the 4 decimal places the source stores (`round(std_dev, 4)`) to
`0.0287`. -/
theorem round_sqrt_c3 : round (Real.sqrt (c3Record.ndvi_var : ℝ) * 10000) = (287 : ℤ) := by
  have hv : ((c3Record.ndvi_var : ℚ) : ℝ) = (37:ℝ)/45000 := by norm_num [c3Record]
  rw [hv, round_eq]
  have h1 := sqrt_var_c3_bounds
  rw [Int.floor_eq_iff]
  constructor
  · push_cast
    linarith [h1.1]
  · push_cast
    linarith [h1.2]

/-- C3 counterexample: for metric values `[0.62, 0.58, 0.65]` the population
standard deviation is `sqrt(37/45000) = 0.028674...`, which rounds at the
source's stored precision of 4 decimal places to `0.0287`, not `0.0294` as
the claim's scenario states. -/
theorem C3_std_value_counterexample :
    _get_monthly_averaged_data "2024-04" c3Input = some c3Record ∧
    round (Real.sqrt (c3Record.ndvi_var : ℝ) * 10000) = (287 : ℤ) ∧
    (287 : ℤ) ≠ 294 :=
  ⟨c3_eval, round_sqrt_c3, by norm_num⟩

/-- C3 (amended): the quality rating equals the fixed additive score of the
spec's table — image count (>=3: 40, ==2: 25, else 10), mean cloud (<10:
40, <20: 25, else 10), standard deviation (<0.05: 20, <0.10: 10, else 5) —
mapped through the tier table; and on the scenario input the aggregated
record has mean metric 0.6167, standard deviation ~0.0287 (not 0.0294),
stored mean cloud 6.3, image count 3 and quality excellent. -/
theorem C3_scenario_and_scoring :
    (∀ (n : Nat) (cloud v : ℚ), 0 ≤ v →
      _assess_monthly_data_quality n cloud v =
        qualityTierSpec
          ((if 3 ≤ n then 40 else if n = 2 then 25 else 10) +
           (if cloud < 10 then 40 else if cloud < 20 then 25 else 10) +
           (if Real.sqrt (v : ℝ) < 5/100 then 20
            else if Real.sqrt (v : ℝ) < 10/100 then 10 else 5))) ∧
    _get_monthly_averaged_data "2024-04" c3Input = some c3Record ∧
    c3Record.ndvi_mean = 6167/10000 ∧
    round (Real.sqrt (c3Record.ndvi_var : ℝ) * 10000) = (287 : ℤ) ∧
    c3Record.cloud_percentage = 63/10 ∧
    c3Record.image_count = 3 ∧
    c3Record.data_quality = "excellent" := by
  refine ⟨?_, c3_eval, rfl, round_sqrt_c3, rfl, rfl, rfl⟩
  intro n cloud v hv
  have hs1 : Real.sqrt (v : ℝ) < 5/100 ↔ v < 1/400 := by
    rw [Real.sqrt_lt' (by norm_num),
      show ((5:ℝ)/100)^2 = ((1/400 : ℚ) : ℝ) by norm_num]
    exact_mod_cast Iff.rfl
  have hs2 : Real.sqrt (v : ℝ) < 10/100 ↔ v < 1/100 := by
    rw [Real.sqrt_lt' (by norm_num),
      show ((10:ℝ)/100)^2 = ((1/100 : ℚ) : ℝ) by norm_num]
    exact_mod_cast Iff.rfl
  have hcnt : (if 3 ≤ n then (40:ℕ) else if 2 ≤ n then 25 else 10) =
      (if 3 ≤ n then 40 else if n = 2 then 25 else 10) := by
    rcases Nat.lt_or_ge n 2 with h | h
    · have h2 : ¬ 2 ≤ n := by omega
      have h3 : ¬ 3 ≤ n := by omega
      have he : ¬ n = 2 := by omega
      simp [h2, h3, he]
    · rcases Nat.lt_or_ge n 3 with hlt | hge
      · have : n = 2 := by omega
        subst this
        simp
      · simp [hge]
  rw [_assess_monthly_data_quality, qualityTierSpec]
  simp only [hs1, hs2, hcnt]

theorem C3_scenario_and_scoring_witness :
    _assess_monthly_data_quality 3 5 (1/100) =
      qualityTierSpec
        ((if 3 ≤ (3:ℕ) then 40 else if (3:ℕ) = 2 then 25 else 10) +
         (if (5:ℚ) < 10 then 40 else if (5:ℚ) < 20 then 25 else 10) +
         (if Real.sqrt ((1/100 : ℚ) : ℝ) < 5/100 then 20
          else if Real.sqrt ((1/100 : ℚ) : ℝ) < 10/100 then 10 else 5)) :=
  C3_scenario_and_scoring.1 3 5 (1/100) (by norm_num)

/-- C4 counterexample: a record written by the bootstrap path carries no
`collection_type` field at all — in particular it is not tagged
`'bootstrap'`. -/
theorem C4_bootstrap_tag_counterexample :
    (bootstrapTag "52.520_13.405" "Berlin" (1313/25) (2681/200) c3Record).collection_type
        = none ∧
    (bootstrapTag "52.520_13.405" "Berlin" (1313/25) (2681/200) c3Record).collection_type
        ≠ some "bootstrap" :=
  ⟨rfl, by simp [bootstrapTag]⟩

/-- C4 (amended): every record appended by a collection run is tagged with
the region_id, the display name and the coordinates; gap-fill records are
additionally tagged `collection_type = 'gap_fill'`, while bootstrap records
carry no `collection_type` field. -/
theorem C4_record_tagging (region_id display_name : String) (lat lon : ℚ)
    (rec : MonthRecord) :
    (gapFillTag region_id display_name lat lon rec).region_id = region_id ∧
    (gapFillTag region_id display_name lat lon rec).region_name = display_name ∧
    (gapFillTag region_id display_name lat lon rec).latitude = lat ∧
    (gapFillTag region_id display_name lat lon rec).longitude = lon ∧
    (gapFillTag region_id display_name lat lon rec).collection_type = some "gap_fill" ∧
    (bootstrapTag region_id display_name lat lon rec).region_id = region_id ∧
    (bootstrapTag region_id display_name lat lon rec).region_name = display_name ∧
    (bootstrapTag region_id display_name lat lon rec).latitude = lat ∧
    (bootstrapTag region_id display_name lat lon rec).longitude = lon ∧
    (bootstrapTag region_id display_name lat lon rec).collection_type = none :=
  ⟨rfl, rfl, rfl, rfl, rfl, rfl, rfl, rfl, rfl, rfl⟩

/-- C7 counterexample: the two failure outcomes — every planned month
yielded no data, and the storage append failed — both return the bare
boolean `False`; the return value does not expose which occurred. -/
theorem C7_failure_indistinguishable_counterexample :
    _fill_missing_months "52.520_13.405" "Berlin" (1313/25) (2681/200)
        ["2024-01"] (fun _ => none) (fun _ => true) = false ∧
    _fill_missing_months "52.520_13.405" "Berlin" (1313/25) (2681/200)
        ["2024-01"] (fun _ => some c3Record) (fun _ => false) = false ∧
    _fill_missing_months "52.520_13.405" "Berlin" (1313/25) (2681/200)
        ["2024-01"] (fun _ => none) (fun _ => true) =
      _fill_missing_months "52.520_13.405" "Berlin" (1313/25) (2681/200)
        ["2024-01"] (fun _ => some c3Record) (fun _ => false) := by
  refine ⟨?_, ?_, ?_⟩ <;> rfl

/-- C7 (amended): `_fill_missing_months` returns `False` without raising
both when every planned month yielded no data and when the storage append
fails, but the returned boolean is the same in the two cases, so the caller
cannot distinguish them from the result (only the logs differ). -/
theorem C7_failure_paths_return_false (region_id display_name : String) (lat lon : ℚ)
    (missing_months : List String) (monthData : String → Option MonthRecord)
    (upload : List StoredRecord → Bool) :
    ((∀ m ∈ missing_months, monthData m = none) →
      _fill_missing_months region_id display_name lat lon missing_months monthData upload
        = false) ∧
    ((∀ l, upload l = false) →
      _fill_missing_months region_id display_name lat lon missing_months monthData upload
        = false) := by
  constructor
  · intro hall
    rw [_fill_missing_months]
    have hnil : missing_months.filterMap
        (fun ms => (monthData ms).map (gapFillTag region_id display_name lat lon)) = [] := by
      rw [List.filterMap_eq_nil]
      intro m hm
      rw [hall m hm]
      rfl
    simp [hnil]
  · intro hup
    rw [_fill_missing_months]
    by_cases hc : missing_months.filterMap
        (fun ms => (monthData ms).map (gapFillTag region_id display_name lat lon)) = []
    · simp [hc]
    · simp only [hc, ne_eq, not_false_iff, if_true]
      exact hup _

theorem C7_failure_paths_return_false_witness :
    _fill_missing_months "52.520_13.405" "Berlin" (1313/25) (2681/200)
        ["2024-02"] (fun _ => none) (fun _ => true) = false ∧
    _fill_missing_months "52.520_13.405" "Berlin" (1313/25) (2681/200)
        ["2024-02"] (fun _ => some c3Record) (fun _ => false) = false :=
  ⟨(C7_failure_paths_return_false "52.520_13.405" "Berlin" (1313/25) (2681/200)
      ["2024-02"] (fun _ => none) (fun _ => true)).1
      (fun m _ => rfl),
   (C7_failure_paths_return_false "52.520_13.405" "Berlin" (1313/25) (2681/200)
      ["2024-02"] (fun _ => some c3Record) (fun _ => false)).2
      (fun _ => rfl)⟩

set_option maxRecDepth 8000 in
/-- C2: evaluation of the bootstrap month planning at `current_date =
2023-03-01`.  The `30 * offset`-day arithmetic yields the months
`[2023-03, 2023-01, 2022-12, 2022-12, 2022-11, 2022-10]`: the calendar
month 2023-02 is never processed, and 2022-12 is processed twice — the
bootstrap does not enumerate each of the last 6 calendar months ending at
the current month exactly once. -/
theorem C2_bootstrap_months_bug :
    bootstrapTargetMonths ⟨2023, 3, 1⟩ =
      [(2023, 3), (2023, 1), (2022, 12), (2022, 12), (2022, 11), (2022, 10)] ∧
    (2023, 2) ∉ bootstrapTargetMonths ⟨2023, 3, 1⟩ ∧
    ¬ (bootstrapTargetMonths ⟨2023, 3, 1⟩).Nodup := by
  refine ⟨by decide, by decide, by decide⟩

/-- C9: `should_collect_data` returns true exactly when the store holds
fewer than 3 records keyed by the display `region_name` or the storage
query fails, and the integration pipeline invokes satellite collection
only when this gate returns true. -/
theorem C9_data_sufficiency_gate (store : List StoredRecord) (region_name : String)
    (queryFails : Bool) :
    (should_collect_data store region_name queryFails = true ↔
      (queryFails = true ∨
        (store.filter (fun r => r.region_name == region_name)).length < 3)) ∧
    (∀ found, analyze_user_location_invokes_collection found store region_name queryFails
        = true →
      should_collect_data store region_name queryFails = true) := by
  constructor
  · rw [should_collect_data]
    by_cases hq : queryFails
    · simp [hq]
    · simp [hq]
  · intro found h
    rw [analyze_user_location_invokes_collection, Bool.and_eq_true] at h
    exact h.2

theorem C9_data_sufficiency_gate_witness :
    should_collect_data [] "Berlin" false = true :=
  (C9_data_sufficiency_gate [] "Berlin" false).2 true rfl
